import Mathlib

/-!
Shallow embedding of the Unified AI Router (src/config.py, src/ai_provider.py,
src/main.py): a FastAPI gateway that routes a normalized chat request to one of
four provider backends (openai, anthropic, gemini, ollama) and normalizes their
failures into HTTPException values.

Network I/O is modelled by outcome oracles: each provider function takes, besides
the arguments the Python function receives, a value describing what its single
backend call would produce (success text, an HTTP status error, an
ollama.ResponseError, or any other exception).  Everything else — string
manipulation, branching, error construction — is translated directly from the
Python source.
-/

set_option linter.unusedVariables false

deriving instance DecidableEq for Except

/- ===== Python string primitives used by the source ===== -/

/-- Python `str.lower()`: character-wise lowercasing. -/
def pyLower (s : String) : String := ⟨s.data.map Char.toLower⟩

/-- Python `str.strip()`: remove leading and trailing whitespace. -/
def pyStrip (s : String) : String :=
  ⟨((s.data.dropWhile Char.isWhitespace).reverse.dropWhile Char.isWhitespace).reverse⟩

/-- Python `needle in hay` substring containment test. -/
def pyIn (needle hay : String) : Bool :=
  go needle.data hay.data
where
  go (n : List Char) : List Char → Bool
    | [] => n.isEmpty
    | c :: t => n.isPrefixOf (c :: t) || go n t

/-- Python `v or dflt` on an optional string: `dflt` is chosen when `v` is
`None` or the empty string (the empty string is falsy in Python). -/
def pyStrOr (v : Option String) (dflt : String) : String :=
  match v with
  | none => dflt
  | some s => if s.data.isEmpty then dflt else s

/- ===== src/config.py ===== -/

/-- `Settings` (src/config.py, lines 9-41): validated application settings.
The string defaults are the source's field defaults. -/
structure Settings where
  openai_api_key : String
  anthropic_api_key : String
  gemini_api_key : String
  ollama_host : String := "http://localhost:11434"
  default_ollama_model : String := "llama3.2:3b"
  default_openai_model : String := "gpt-4o-mini"
  default_anthropic_model : String := "claude-3-5-sonnet-20241022"
  default_gemini_model : String := "gemini-1.5-flash"
  allowed_origins : String := "http://localhost:3000,http://localhost:8000"
deriving DecidableEq

/-- `Settings.is_ollama_available` (src/config.py, lines 34-37):
`bool(self.ollama_host.strip())`, i.e. true iff the host string is non-empty
after stripping whitespace. -/
def Settings.is_ollama_available (s : Settings) : Bool :=
  !(pyStrip s.ollama_host).data.isEmpty

/- ===== Error model ===== -/

/-- `fastapi.HTTPException(status_code=..., detail=...)` as raised throughout
src/ai_provider.py and src/main.py; this is the spec's NormalizedError
(http_status ↦ status_code, message ↦ detail). -/
structure HTTPException where
  status_code : Nat
  detail : String
deriving DecidableEq, Repr

/- ===== Provider registry (src/ai_provider.py, lines 214-240) ===== -/

/-- The four provider functions registered in `PROVIDER_MAP`
(src/ai_provider.py, lines 215-220), as first-class names. -/
inductive Provider where
  | openai
  | anthropic
  | gemini
  | ollama
deriving DecidableEq, Repr

/-- The identifier under which each provider function is registered. -/
def providerId : Provider → String
  | .openai => "openai"
  | .anthropic => "anthropic"
  | .gemini => "gemini"
  | .ollama => "ollama"

/-- `PROVIDER_MAP` (src/ai_provider.py, lines 215-220): name → provider
function, in the source's insertion order. -/
def PROVIDER_MAP : List (String × Provider) :=
  [("openai", .openai), ("anthropic", .anthropic), ("gemini", .gemini), ("ollama", .ollama)]

/-- The f-string detail of the unknown-provider error (src/ai_provider.py,
line 230): `available` is `list(PROVIDER_MAP.keys())`, which Python formats as
a bracketed, quoted, comma-separated list in insertion order. -/
def unsupportedProviderDetail (provider : String) : String :=
  "Unsupported provider: \x27" ++
    (provider ++ "\x27. Available: [\x27openai\x27, \x27anthropic\x27, \x27gemini\x27, \x27ollama\x27]")

/-- Detail of the registry's unavailable-ollama error (src/ai_provider.py, line 237). -/
def ollamaNotConfiguredRegistryDetail : String :=
  "Ollama provider requested but not configured. Set OLLAMA_HOST in .env"

/-- `get_provider_function` (src/ai_provider.py, lines 222-240): lowercase the
identifier, reject unknown names with 400, reject "ollama" with 400 when
`settings.is_ollama_available` is false, otherwise return the registered
provider function.  (The Python code checks `provider not in PROVIDER_MAP`
first and indexes the dict at the end; a single lookup is the same.) -/
def get_provider_function (settings : Settings) (provider : String) :
    Except HTTPException Provider :=
  match PROVIDER_MAP.lookup (pyLower provider) with
  | none => .error ⟨400, unsupportedProviderDetail (pyLower provider)⟩
  | some f =>
      if pyLower provider == "ollama" && !settings.is_ollama_available then
        .error ⟨400, ollamaNotConfiguredRegistryDetail⟩
      else
        .ok f

/- ===== Timeout configuration (src/ai_provider.py, line 15) ===== -/

/-- `httpx.Timeout(30.0, connect=10.0)`: the positional argument is the
overall budget, `connect` the connection-establishment budget. -/
structure Timeout where
  timeout : ℚ
  connect : ℚ
deriving DecidableEq

/-- `TIMEOUT_CONFIG` (src/ai_provider.py, line 15). -/
def TIMEOUT_CONFIG : Timeout := { timeout := 30, connect := 10 }

/- ===== Outbound requests each client issues ===== -/

/-- The request a cloud provider function hands to its `httpx.AsyncClient`:
target URL, resolved model, token/temperature parameters, and the timeout
configuration the client is constructed with (`timeout=TIMEOUT_CONFIG` for all
three cloud clients). -/
structure CloudRequest where
  url : String
  prompt : String
  model : String
  max_tokens : Int
  temperature : ℚ
  timeout : Option Timeout
deriving DecidableEq

/-- The outbound request of `call_openai` (src/ai_provider.py, lines 26-47):
model defaults via `model or settings.default_openai_model`. -/
def openai_request (settings : Settings) (prompt : String) (model : Option String)
    (max_tokens : Int) (temperature : ℚ) : CloudRequest :=
  { url := "https://api.openai.com/v1/chat/completions"
    prompt := prompt
    model := pyStrOr model settings.default_openai_model
    max_tokens := max_tokens
    temperature := temperature
    timeout := some TIMEOUT_CONFIG }

/-- The outbound request of `call_anthropic` (src/ai_provider.py, lines 71-94):
additionally clamps `max_tokens` to `max(1, min(max_tokens, 4096))` (line 73). -/
def anthropic_request (settings : Settings) (prompt : String) (model : Option String)
    (max_tokens : Int) (temperature : ℚ) : CloudRequest :=
  { url := "https://api.anthropic.com/v1/messages"
    prompt := prompt
    model := pyStrOr model settings.default_anthropic_model
    max_tokens := max 1 (min max_tokens 4096)
    temperature := temperature
    timeout := some TIMEOUT_CONFIG }

/-- Gemini model-name munging (src/ai_provider.py, line 121): drop the
"gemini-" prefix (Python `replace` removes every occurrence, guarded by
`startswith`). -/
def gemini_api_model (model_name : String) : String :=
  if model_name.startsWith "gemini-" then model_name.replace "gemini-" "" else model_name

/-- The outbound request of `call_gemini` (src/ai_provider.py, lines 118-137);
`max_tokens` is sent as `generationConfig.maxOutputTokens`. -/
def gemini_request (settings : Settings) (prompt : String) (model : Option String)
    (max_tokens : Int) (temperature : ℚ) : CloudRequest :=
  { url := "https://generativelanguage.googleapis.com/v1beta/models/" ++
      (gemini_api_model (pyStrOr model settings.default_gemini_model) ++ ":generateContent")
    prompt := prompt
    model := pyStrOr model settings.default_gemini_model
    max_tokens := max_tokens
    temperature := temperature
    timeout := some TIMEOUT_CONFIG }

/-- The request `call_ollama` hands to `ollama.generate` (src/ai_provider.py,
lines 180-187): model, prompt, and options `temperature`/`num_predict`.  The
call passes no timeout configuration and no host taken from `settings`; the
`timeout` field records exactly the timeout argument the code supplies: none. -/
structure OllamaRequest where
  model : String
  prompt : String
  temperature : ℚ
  num_predict : Int
  timeout : Option Timeout
deriving DecidableEq

/-- The outbound request of `call_ollama`'s success path (src/ai_provider.py,
lines 172-187). -/
def ollama_request (settings : Settings) (prompt : String) (model : Option String)
    (max_tokens : Int) (temperature : ℚ) : OllamaRequest :=
  { model := pyStrOr model settings.default_ollama_model
    prompt := prompt
    temperature := temperature
    num_predict := max_tokens
    timeout := none }

/- ===== Cloud provider functions (src/ai_provider.py, lines 19-152) ===== -/

/-- What the single `httpx` POST inside a cloud provider function produces:
`success text` — a 2xx response whose body parses and whose content field is
`text`; `statusError code errorMessage fallback` — `raise_for_status` raised
`httpx.HTTPStatusError` with status `code`, `errorMessage` the body's
`error.message` field when the JSON body has one, `fallback` the `str(e)` used
otherwise; `failure msg` — any other exception (network error, timeout,
malformed 2xx payload), with `str(e) = msg`. -/
inductive HttpOutcome where
  | success (text : String)
  | statusError (status_code : Nat) (errorMessage : Option String) (fallback : String)
  | failure (msg : String)

/-- `call_openai` (src/ai_provider.py, lines 19-62). -/
def call_openai (settings : Settings) (prompt : String) (model : Option String)
    (max_tokens : Int) (temperature : ℚ) (outcome : HttpOutcome) :
    Except HTTPException String :=
  let req := openai_request settings prompt model max_tokens temperature
  match outcome with
  | .success text => .ok (pyStrip text)
  | .statusError status_code errorMessage fallback =>
      .error ⟨status_code, "OpenAI API Error: " ++ (errorMessage.getD fallback)⟩
  | .failure msg => .error ⟨502, "OpenAI request failed: " ++ msg⟩

/-- `call_anthropic` (src/ai_provider.py, lines 64-109). -/
def call_anthropic (settings : Settings) (prompt : String) (model : Option String)
    (max_tokens : Int) (temperature : ℚ) (outcome : HttpOutcome) :
    Except HTTPException String :=
  let req := anthropic_request settings prompt model max_tokens temperature
  match outcome with
  | .success text => .ok (pyStrip text)
  | .statusError status_code errorMessage fallback =>
      .error ⟨status_code, "Anthropic API Error: " ++ (errorMessage.getD fallback)⟩
  | .failure msg => .error ⟨502, "Anthropic request failed: " ++ msg⟩

/-- `call_gemini` (src/ai_provider.py, lines 111-152). -/
def call_gemini (settings : Settings) (prompt : String) (model : Option String)
    (max_tokens : Int) (temperature : ℚ) (outcome : HttpOutcome) :
    Except HTTPException String :=
  let req := gemini_request settings prompt model max_tokens temperature
  match outcome with
  | .success text => .ok (pyStrip text)
  | .statusError status_code errorMessage fallback =>
      .error ⟨status_code, "Gemini API Error: " ++ (errorMessage.getD fallback)⟩
  | .failure msg => .error ⟨502, "Gemini request failed: " ++ msg⟩

/- ===== Ollama provider function (src/ai_provider.py, lines 156-212) ===== -/

/-- What the `ollama.generate` call inside `call_ollama` produces:
`success text` — a response dict whose "response" field is `text`;
`responseError msg` — `ollama.ResponseError` with `str(e) = msg`;
`failure msg` — any other exception with `str(e) = msg`. -/
inductive OllamaOutcome where
  | success (text : String)
  | responseError (msg : String)
  | failure (msg : String)

/-- Detail of the unconfigured-ollama 503 error (src/ai_provider.py, line 169). -/
def ollamaNotConfiguredDetail : String :=
  "Ollama is not configured. Set OLLAMA_HOST in .env"

/-- Detail of the model-not-found 400 error (src/ai_provider.py, line 196). -/
def ollamaModelNotFoundDetail (model : String) : String :=
  "Ollama model \x27" ++ (model ++ ("\x27 not found. Run: ollama pull " ++ model))

/-- Detail of the server-not-running 503 error (src/ai_provider.py, line 201). -/
def ollamaServerDownDetail (host : String) : String :=
  "Ollama server not running at " ++ (host ++ ". Start with: ollama serve")

/-- `call_ollama` (src/ai_provider.py, lines 156-212): guard on
`settings.is_ollama_available`, resolve the model via Python `or`, then either
return the stripped response text or classify the failure by its error text. -/
def call_ollama (settings : Settings) (prompt : String) (model : Option String)
    (max_tokens : Int) (temperature : ℚ) (outcome : OllamaOutcome) :
    Except HTTPException String :=
  if !settings.is_ollama_available then
    .error ⟨503, ollamaNotConfiguredDetail⟩
  else
    let model := pyStrOr model settings.default_ollama_model
    match outcome with
    | .success text => .ok (pyStrip text)
    | .responseError msg =>
        if pyIn "model not found" (pyLower msg) then
          .error ⟨400, ollamaModelNotFoundDetail model⟩
        else if pyIn "connection" (pyLower msg) || pyIn "refused" (pyLower msg) then
          .error ⟨503, ollamaServerDownDetail settings.ollama_host⟩
        else
          .error ⟨502, "Ollama error: " ++ msg⟩
    | .failure msg => .error ⟨502, "Ollama request failed: " ++ msg⟩

/- ===== Request validation (src/main.py, lines 42-48) ===== -/

/-- A validated `AIRequest` (src/main.py, lines 42-48), after pydantic has
applied defaults and constraints. -/
structure AIRequest where
  provider : String
  prompt : String
  model : Option String
  max_tokens : Int
  temperature : ℚ
deriving DecidableEq

/-- `AIResponse` (src/main.py, lines 50-56). -/
structure AIResponse where
  provider : String
  model : String
  response : String
  prompt_tokens : Option Int := none
  completion_tokens : Option Int := none
deriving DecidableEq, Repr

/-- The raw request body as submitted to the request layer, before pydantic
validation; `none` marks an omitted field. -/
structure RawAIRequest where
  provider : String
  prompt : String
  model : Option String := none
  max_tokens : Option Int := none
  temperature : Option ℚ := none

/-- The field constraint a pydantic validation failure reports. -/
inductive ValidationError where
  | promptLength
  | maxTokensRange
  | temperatureRange
deriving DecidableEq, Repr

/-- `prompt: Field(..., min_length=1, max_length=10000)` (src/main.py, line 45). -/
def validate_prompt (prompt : String) : Except ValidationError String :=
  if prompt.data.length < 1 then .error .promptLength
  else if 10000 < prompt.data.length then .error .promptLength
  else .ok prompt

/-- `max_tokens: Field(500, ge=1, le=4096)` (src/main.py, line 47): default 500
when omitted, reject outside [1,4096]. -/
def validate_max_tokens : Option Int → Except ValidationError Int
  | none => .ok 500
  | some n => if n < 1 ∨ 4096 < n then .error .maxTokensRange else .ok n

/-- `temperature: Field(0.7, ge=0.0, le=2.0)` (src/main.py, line 48): default
0.7 when omitted, reject outside [0,2]. -/
def validate_temperature : Option ℚ → Except ValidationError ℚ
  | none => .ok (7/10)
  | some t => if t < 0 ∨ 2 < t then .error .temperatureRange else .ok t

/-- Pydantic validation of the request body, run by FastAPI before
`chat_endpoint` is entered (src/main.py, lines 42-48 and 58-59). -/
def parseAIRequest (raw : RawAIRequest) : Except ValidationError AIRequest :=
  match validate_prompt raw.prompt with
  | .error e => .error e
  | .ok prompt =>
      match validate_max_tokens raw.max_tokens with
      | .error e => .error e
      | .ok max_tokens =>
          match validate_temperature raw.temperature with
          | .error e => .error e
          | .ok temperature =>
              .ok ⟨raw.provider, prompt, raw.model, max_tokens, temperature⟩

/- ===== Router (src/main.py, lines 58-107) ===== -/

/-- What `await provider_func(...)` does inside the endpoint's `try` block:
`ok text` — the provider function returned `text`; `httpError e` — it raised
`HTTPException e` (re-raised unchanged by `except HTTPException`); `unexpected
msg` — it raised any other exception (caught by the final `except Exception`). -/
inductive CallResult where
  | ok (text : String)
  | httpError (e : HTTPException)
  | unexpected (msg : String)
deriving DecidableEq

/-- The argument tuple `chat_endpoint` passes to the resolved provider function
(src/main.py, lines 84-89). -/
structure InvokeArgs where
  prompt : String
  model : Option String
  max_tokens : Int
  temperature : ℚ
deriving DecidableEq

def argsOf (request : AIRequest) : InvokeArgs :=
  ⟨request.prompt, request.model, request.max_tokens, request.temperature⟩

/-- Detail of the catch-all 500 error (src/main.py, line 106). -/
def internalErrorDetail : String := "Internal server error processing AI request"

/-- `chat_endpoint` (src/main.py, lines 58-107), with the provider invocation
abstracted by the `invoke` oracle: resolve the provider function from
`request.provider.lower()`, invoke it, and on success wrap the text into an
`AIResponse` whose model field is `request.model or "default"`.  An
`HTTPException` from either step is re-raised unchanged; any other exception
becomes the generic 500. -/
def chat_endpoint (settings : Settings) (request : AIRequest)
    (invoke : Provider → InvokeArgs → CallResult) : Except HTTPException AIResponse :=
  match get_provider_function settings (pyLower request.provider) with
  | .error e => .error e
  | .ok provider_func =>
      match invoke provider_func (argsOf request) with
      | .ok response_text =>
          .ok { provider := request.provider
                model := pyStrOr request.model "default"
                response := response_text }
      | .httpError e => .error e
      | .unexpected msg => .error ⟨500, internalErrorDetail⟩

/-- Lift a provider function's result into the endpoint's view of the call:
a returned string or a raised `HTTPException`. -/
def toCallResult : Except HTTPException String → CallResult
  | .ok t => .ok t
  | .error e => .httpError e

/-- The invoke oracle obtained by running the four embedded provider functions
against fixed backend outcomes. -/
def invokeWith (settings : Settings) (cloud : HttpOutcome) (local_outcome : OllamaOutcome) :
    Provider → InvokeArgs → CallResult :=
  fun p a =>
    match p with
    | .openai => toCallResult (call_openai settings a.prompt a.model a.max_tokens a.temperature cloud)
    | .anthropic => toCallResult (call_anthropic settings a.prompt a.model a.max_tokens a.temperature cloud)
    | .gemini => toCallResult (call_gemini settings a.prompt a.model a.max_tokens a.temperature cloud)
    | .ollama => toCallResult (call_ollama settings a.prompt a.model a.max_tokens a.temperature local_outcome)

/-- The HTTP-layer result of a POST to /ai/chat: a 200 with an `AIResponse`,
a 422 validation rejection produced before the endpoint body runs, or the
error envelope of a raised `HTTPException`. -/
inductive HandlerResult where
  | response (r : AIResponse)
  | validationError (e : ValidationError)
  | httpError (e : HTTPException)
deriving DecidableEq

/-- The full request pipeline: pydantic validation, then `chat_endpoint`. -/
def handle (settings : Settings) (raw : RawAIRequest)
    (invoke : Provider → InvokeArgs → CallResult) : HandlerResult :=
  match parseAIRequest raw with
  | .error e => .validationError e
  | .ok request =>
      match chat_endpoint settings request invoke with
      | .ok r => .response r
      | .error e => .httpError e

/- ===== Concrete fixtures for witnesses ===== -/

/-- A settings value with the source's defaults and dummy API keys;
`ollama_host` is the configured default, so ollama is available. -/
def testSettings : Settings :=
  { openai_api_key := "sk-test"
    anthropic_api_key := "sk-test"
    gemini_api_key := "sk-test" }

/-- The same settings with an unconfigured (empty) ollama host. -/
def noOllamaSettings : Settings :=
  { testSettings with ollama_host := "" }

/-- A validated request for openai with every optional field omitted. -/
def reqOpenaiHi : AIRequest :=
  { provider := "openai", prompt := "hi", model := none, max_tokens := 500, temperature := 1 }

/-- A validated request for an unknown provider. -/
def reqUnknown : AIRequest :=
  { provider := "nope", prompt := "hi", model := none, max_tokens := 500, temperature := 1 }

/-- A validated request whose caller-supplied model is the empty string. -/
def reqEmptyModel : AIRequest :=
  { provider := "openai", prompt := "hi", model := some "", max_tokens := 500, temperature := 1 }

/-- A validated request whose caller supplied a non-empty model name. -/
def reqModelGiven : AIRequest :=
  { provider := "openai", prompt := "hi", model := some "gpt-4o", max_tokens := 500,
    temperature := 1 }

/-- An invoke oracle whose backend call always returns successfully. -/
def okInvoke : Provider → InvokeArgs → CallResult := fun _ _ => .ok "ok"

/-- An invoke oracle whose backend call always raises a normalized HTTPException. -/
def teapotInvoke : Provider → InvokeArgs → CallResult := fun _ _ => .httpError ⟨418, "teapot"⟩

/-- An invoke oracle whose backend call always raises a non-HTTPException error. -/
def boomInvoke : Provider → InvokeArgs → CallResult := fun _ _ => .unexpected "boom"

/- ===== Helper lemmas ===== -/

/-- Looking up a key outside the registered identifier set fails. -/
theorem provider_map_lookup_none (s : String)
    (h : s ∉ ["openai", "anthropic", "gemini", "ollama"]) :
    PROVIDER_MAP.lookup s = none := by
  simp only [List.mem_cons, List.not_mem_nil, or_false, not_or] at h
  obtain ⟨h1, h2, h3, h4⟩ := h
  have e1 : (s == "openai") = false := by simp [h1]
  have e2 : (s == "anthropic") = false := by simp [h2]
  have e3 : (s == "gemini") = false := by simp [h3]
  have e4 : (s == "ollama") = false := by simp [h4]
  simp [PROVIDER_MAP, List.lookup, e1, e2, e3, e4]

/-- Only the key "ollama" is mapped to the ollama provider function. -/
theorem provider_map_lookup_ollama (s : String)
    (h : PROVIDER_MAP.lookup s = some Provider.ollama) : s = "ollama" := by
  simp only [PROVIDER_MAP, List.lookup] at h
  by_cases h1 : s == "openai" <;> simp [h1] at h
  by_cases h2 : s == "anthropic" <;> simp [h2] at h
  by_cases h3 : s == "gemini" <;> simp [h3] at h
  by_cases h4 : s == "ollama" <;> simp [h4] at h
  exact eq_of_beq h4

/-- Two strings are distinct when their first `k` characters already differ,
even if one of them ends in arbitrary appended text. -/
theorem append_ne_of_take_ne (p q c : String) (k : Nat) (hk : k ≤ p.data.length)
    (h : p.data.take k ≠ c.data.take k) : p ++ q ≠ c := by
  intro he
  apply h
  have hd : (p ++ q).data = p.data ++ q.data := rfl
  have h2 : (p.data ++ q.data).take k = c.data.take k := by rw [← hd, he]
  rw [← h2, List.take_append_of_le_length hk]

/-- A successful registry resolution to the ollama provider function implies
that ollama is available in the settings the registry consulted. -/
theorem resolve_ok_ollama_available (settings : Settings) (s : String)
    (h : get_provider_function settings s = .ok Provider.ollama) :
    settings.is_ollama_available = true := by
  unfold get_provider_function at h
  cases hlk : PROVIDER_MAP.lookup (pyLower s) with
  | none => rw [hlk] at h; exact absurd h (by simp)
  | some f =>
      rw [hlk] at h
      dsimp only at h
      by_cases hc : (pyLower s == "ollama" && !settings.is_ollama_available) = true
      · rw [if_pos hc] at h
        exact absurd h (by simp)
      · rw [if_neg hc] at h
        injection h with h
        subst h
        have hkey : pyLower s = "ollama" := provider_map_lookup_ollama _ hlk
        rw [hkey] at hc
        simpa using hc

/- ===== Claim theorems ===== -/

/-- Claim C1: for every known provider identifier in any letter case (with a
configured ollama host when the identifier is ollama's), `get_provider_function`
returns that provider's function; for every string whose lowercasing is outside
the known set it fails with status 400 and the message enumerating exactly the
known identifiers; and for the identifier "ollama" with ollama unavailable it
fails with status 400 explaining the missing configuration. -/
theorem resolve_spec (settings : Settings) (s : String) :
    (∀ p : Provider, pyLower s = providerId p →
        (p = Provider.ollama → settings.is_ollama_available = true) →
        get_provider_function settings s = .ok p)
    ∧ (pyLower s ∉ ["openai", "anthropic", "gemini", "ollama"] →
        get_provider_function settings s = .error ⟨400, unsupportedProviderDetail (pyLower s)⟩)
    ∧ (pyLower s = "ollama" → settings.is_ollama_available = false →
        get_provider_function settings s = .error ⟨400, ollamaNotConfiguredRegistryDetail⟩) := by
  refine ⟨?_, ?_, ?_⟩
  · intro p hp hav
    cases p
    · simp [get_provider_function, hp, providerId, PROVIDER_MAP, List.lookup]
    · simp [get_provider_function, hp, providerId, PROVIDER_MAP, List.lookup]
    · simp [get_provider_function, hp, providerId, PROVIDER_MAP, List.lookup]
    · simp [get_provider_function, hp, providerId, PROVIDER_MAP, List.lookup, hav rfl]
  · intro h
    have hn : PROVIDER_MAP.lookup (pyLower s) = none := provider_map_lookup_none _ h
    simp [get_provider_function, hn]
  · intro h hav
    simp [get_provider_function, h, PROVIDER_MAP, List.lookup, hav]

/-- Witness for C1: resolution of each identifier in mixed case, an unknown
identifier, and "ollama" against an unconfigured host. -/
theorem resolve_spec_witness :
    get_provider_function testSettings "OpenAI" = .ok .openai
    ∧ get_provider_function testSettings "Anthropic" = .ok .anthropic
    ∧ get_provider_function testSettings "GEMINI" = .ok .gemini
    ∧ get_provider_function testSettings "Ollama" = .ok .ollama
    ∧ get_provider_function testSettings "mistral"
        = .error ⟨400, unsupportedProviderDetail "mistral"⟩
    ∧ get_provider_function noOllamaSettings "ollama"
        = .error ⟨400, ollamaNotConfiguredRegistryDetail⟩ :=
  ⟨(resolve_spec testSettings "OpenAI").1 .openai (by decide) (fun _ => by decide),
   (resolve_spec testSettings "Anthropic").1 .anthropic (by decide) (fun _ => by decide),
   (resolve_spec testSettings "GEMINI").1 .gemini (by decide) (fun _ => by decide),
   (resolve_spec testSettings "Ollama").1 .ollama (by decide) (fun _ => by decide),
   (resolve_spec testSettings "mistral").2.1 (by decide),
   (resolve_spec noOllamaSettings "ollama").2.2 (by decide) (by decide)⟩

/-- Claim C4: a failure already carried as an HTTPException — whether raised by
the registry or by the invoked provider function — propagates out of
`chat_endpoint` unchanged, while any other exception is converted to exactly
status 500 with the fixed generic detail. -/
theorem router_error_policy (settings : Settings) (request : AIRequest)
    (invoke : Provider → InvokeArgs → CallResult) :
    (∀ e, get_provider_function settings (pyLower request.provider) = .error e →
        chat_endpoint settings request invoke = .error e)
    ∧ (∀ p e, get_provider_function settings (pyLower request.provider) = .ok p →
        invoke p (argsOf request) = .httpError e →
        chat_endpoint settings request invoke = .error e)
    ∧ (∀ p msg, get_provider_function settings (pyLower request.provider) = .ok p →
        invoke p (argsOf request) = .unexpected msg →
        chat_endpoint settings request invoke = .error ⟨500, internalErrorDetail⟩) := by
  refine ⟨?_, ?_, ?_⟩ <;> intros <;> simp [chat_endpoint, *]

/-- Witness for C4: a registry failure, a backend HTTPException, and an
unexpected backend exception, each routed through the endpoint. -/
theorem router_error_policy_witness :
    chat_endpoint testSettings reqUnknown okInvoke
      = .error ⟨400, unsupportedProviderDetail "nope"⟩
    ∧ chat_endpoint testSettings reqOpenaiHi teapotInvoke = .error ⟨418, "teapot"⟩
    ∧ chat_endpoint testSettings reqOpenaiHi boomInvoke
      = .error ⟨500, internalErrorDetail⟩ :=
  ⟨(router_error_policy testSettings reqUnknown okInvoke).1
      ⟨400, unsupportedProviderDetail "nope"⟩ (by decide),
   (router_error_policy testSettings reqOpenaiHi teapotInvoke).2.1 .openai
      ⟨418, "teapot"⟩ (by decide) (by decide),
   (router_error_policy testSettings reqOpenaiHi boomInvoke).2.2 .openai
      "boom" (by decide) (by decide)⟩

/-- Claim C7: with an empty configured endpoint string, every invocation of
`call_ollama` fails with status 503, and it does so for every possible backend
outcome — i.e. before (independent of) any network I/O. -/
theorem ollama_unconfigured_503 (settings : Settings) (prompt : String) (model : Option String)
    (max_tokens : Int) (temperature : ℚ) (h : settings.ollama_host = "") :
    ∀ outcome, call_ollama settings prompt model max_tokens temperature outcome
      = .error ⟨503, ollamaNotConfiguredDetail⟩ := by
  intro outcome
  have hav : settings.is_ollama_available = false := by
    simp [Settings.is_ollama_available, h, pyStrip]
  simp [call_ollama, hav]

/-- Witness for C7: the unconfigured settings reject an invocation whose
backend, had it been consulted, would have succeeded. -/
theorem ollama_unconfigured_503_witness :
    call_ollama noOllamaSettings "hi" none 500 1 (.success "hi")
      = .error ⟨503, ollamaNotConfiguredDetail⟩ :=
  ollama_unconfigured_503 noOllamaSettings "hi" none 500 1 (by decide) (.success "hi")

/-- Claim C2 counterexample: when the caller supplies the *empty string* as the
model, the response's model field is the literal "default", not the
caller-supplied value — `request.model or "default"` treats the empty string as
falsy, so the claim's "equals the caller-supplied model string when one was
given" fails at this input. -/
theorem model_field_counterexample :
    reqEmptyModel.model = some ""
    ∧ chat_endpoint testSettings reqEmptyModel (invokeWith testSettings (.success "ok") (.success "ok"))
        = .ok { provider := "openai", model := "default", response := "ok" }
    ∧ ("default" : String) ≠ "" :=
  ⟨rfl, by decide, by decide⟩

/-- Claim C2 (amended): for every successfully routed request the response's
model field equals the caller-supplied model string when a non-empty one was
given, and equals the literal "default" when the model was omitted or supplied
as the empty string — never the backend's resolved model name. -/
theorem model_field_amended (settings : Settings) (request : AIRequest)
    (invoke : Provider → InvokeArgs → CallResult) (p : Provider) (text : String)
    (hres : get_provider_function settings (pyLower request.provider) = .ok p)
    (hinv : invoke p (argsOf request) = .ok text) :
    chat_endpoint settings request invoke
      = .ok { provider := request.provider, model := pyStrOr request.model "default",
              response := text }
    ∧ (∀ m, request.model = some m → m ≠ "" → pyStrOr request.model "default" = m)
    ∧ ((request.model = none ∨ request.model = some "") →
        pyStrOr request.model "default" = "default") := by
  refine ⟨by simp [chat_endpoint, hres, hinv], ?_, ?_⟩
  · intro m hm hne
    have hd : m.data.isEmpty = false := by
      cases hq : m.data with
      | nil => exact absurd (String.ext (by rw [hq])) hne
      | cons c t => rfl
    simp [pyStrOr, hm, hd]
  · rintro (h | h) <;> simp [pyStrOr, h]

/-- Witness for the amended C2: a non-empty caller-supplied model is echoed
back unchanged. -/
theorem model_field_amended_witness :
    chat_endpoint testSettings reqModelGiven (invokeWith testSettings (.success "ok") (.success "ok"))
      = .ok { provider := "openai", model := "gpt-4o", response := "ok" } := by
  have h := model_field_amended testSettings reqModelGiven
    (invokeWith testSettings (.success "ok") (.success "ok")) .openai "ok" (by decide) (by decide)
  have hm := h.2.1 "gpt-4o" rfl (by decide)
  rw [h.1, hm]
  rfl

/-- Claim C3 counterexample: the ollama provider function passes no timeout
configuration whatsoever to its backend call, so it is not the case that every
provider implementation issues its call under the fixed 10s-connect/30s-total
budget. -/
theorem timeout_budget_counterexample :
    (ollama_request testSettings "hi" none 500 1).timeout = none
    ∧ (ollama_request testSettings "hi" none 500 1).timeout ≠ some TIMEOUT_CONFIG :=
  ⟨rfl, by simp [ollama_request]⟩

/-- Claim C3 (amended): the three cloud provider functions issue their backend
calls under the fixed TIMEOUT_CONFIG budget, whose connection-establishment
timeout (10s) is shorter than its total-request timeout (30s), and map an
invocation that fails outside a 2xx/HTTPStatusError outcome (including timeout
exhaustion) to a 502 NormalizedError; the ollama provider function issues its
call with no timeout configuration at all. -/
theorem timeout_budget_amended :
    (∀ (settings : Settings) (prompt : String) (model : Option String)
        (max_tokens : Int) (temperature : ℚ),
        (openai_request settings prompt model max_tokens temperature).timeout
          = some TIMEOUT_CONFIG
        ∧ (anthropic_request settings prompt model max_tokens temperature).timeout
          = some TIMEOUT_CONFIG
        ∧ (gemini_request settings prompt model max_tokens temperature).timeout
          = some TIMEOUT_CONFIG
        ∧ (ollama_request settings prompt model max_tokens temperature).timeout = none)
    ∧ TIMEOUT_CONFIG.connect < TIMEOUT_CONFIG.timeout
    ∧ (∀ (settings : Settings) (prompt : String) (model : Option String)
        (max_tokens : Int) (temperature : ℚ) (msg : String),
        call_openai settings prompt model max_tokens temperature (.failure msg)
          = .error ⟨502, "OpenAI request failed: " ++ msg⟩
        ∧ call_anthropic settings prompt model max_tokens temperature (.failure msg)
          = .error ⟨502, "Anthropic request failed: " ++ msg⟩
        ∧ call_gemini settings prompt model max_tokens temperature (.failure msg)
          = .error ⟨502, "Gemini request failed: " ++ msg⟩) :=
  ⟨fun _ _ _ _ _ => ⟨rfl, rfl, rfl, rfl⟩,
   by norm_num [TIMEOUT_CONFIG],
   fun _ _ _ _ _ _ => ⟨rfl, rfl, rfl⟩⟩

/-- Claim C5: on a non-2xx backend response each cloud provider function raises
an HTTPException carrying the backend's own HTTP status code and a
provider-prefixed message whose detail is exactly the body's error.message
field when present, or the generic exception description otherwise. -/
theorem cloud_api_error_spec (settings : Settings) (prompt : String) (model : Option String)
    (max_tokens : Int) (temperature : ℚ) (status_code : Nat) (detail fallback : String) :
    (call_openai settings prompt model max_tokens temperature
        (.statusError status_code (some detail) fallback)
        = .error ⟨status_code, "OpenAI API Error: " ++ detail⟩
      ∧ call_openai settings prompt model max_tokens temperature
        (.statusError status_code none fallback)
        = .error ⟨status_code, "OpenAI API Error: " ++ fallback⟩)
    ∧ (call_anthropic settings prompt model max_tokens temperature
        (.statusError status_code (some detail) fallback)
        = .error ⟨status_code, "Anthropic API Error: " ++ detail⟩
      ∧ call_anthropic settings prompt model max_tokens temperature
        (.statusError status_code none fallback)
        = .error ⟨status_code, "Anthropic API Error: " ++ fallback⟩)
    ∧ (call_gemini settings prompt model max_tokens temperature
        (.statusError status_code (some detail) fallback)
        = .error ⟨status_code, "Gemini API Error: " ++ detail⟩
      ∧ call_gemini settings prompt model max_tokens temperature
        (.statusError status_code none fallback)
        = .error ⟨status_code, "Gemini API Error: " ++ fallback⟩) :=
  ⟨⟨rfl, rfl⟩, ⟨rfl, rfl⟩, ⟨rfl, rfl⟩⟩

/-- Claim C6: an `ollama.ResponseError` is classified by its lowercased error
text — "model not found" yields 400 with a hint naming the resolved model, then
"connection"/"refused" yields 503 with a hint to start the local server, and
anything else yields the generic 502. -/
theorem ollama_error_classification (settings : Settings) (prompt : String)
    (model : Option String) (max_tokens : Int) (temperature : ℚ) (msg : String)
    (hav : settings.is_ollama_available = true) :
    (pyIn "model not found" (pyLower msg) = true →
        call_ollama settings prompt model max_tokens temperature (.responseError msg)
          = .error ⟨400, ollamaModelNotFoundDetail (pyStrOr model settings.default_ollama_model)⟩)
    ∧ (pyIn "model not found" (pyLower msg) = false →
        (pyIn "connection" (pyLower msg) || pyIn "refused" (pyLower msg)) = true →
        call_ollama settings prompt model max_tokens temperature (.responseError msg)
          = .error ⟨503, ollamaServerDownDetail settings.ollama_host⟩)
    ∧ (pyIn "model not found" (pyLower msg) = false →
        (pyIn "connection" (pyLower msg) || pyIn "refused" (pyLower msg)) = false →
        call_ollama settings prompt model max_tokens temperature (.responseError msg)
          = .error ⟨502, "Ollama error: " ++ msg⟩) := by
  refine ⟨?_, ?_, ?_⟩ <;> intros <;> simp [call_ollama, hav, *]

/-- Witness for C6: the three error-text classes at concrete messages. -/
theorem ollama_error_classification_witness :
    call_ollama testSettings "hi" none 500 1 (.responseError "Model NOT Found: llama9")
      = .error ⟨400, ollamaModelNotFoundDetail "llama3.2:3b"⟩
    ∧ call_ollama testSettings "hi" none 500 1 (.responseError "Connection refused")
      = .error ⟨503, ollamaServerDownDetail "http://localhost:11434"⟩
    ∧ call_ollama testSettings "hi" none 500 1 (.responseError "boom")
      = .error ⟨502, "Ollama error: boom"⟩ := by
  have h1 := (ollama_error_classification testSettings "hi" none 500 1
    "Model NOT Found: llama9" (by decide)).1 (by decide)
  have h2 := (ollama_error_classification testSettings "hi" none 500 1
    "Connection refused" (by decide)).2.1 (by decide) (by decide)
  have h3 := (ollama_error_classification testSettings "hi" none 500 1
    "boom" (by decide)).2.2 (by decide) (by decide)
  exact ⟨h1, h2, h3⟩

/-- Claim C9: every provider function strips leading and trailing whitespace
from the extracted backend text before returning it, and a backend that returns
"  hello world  " yields, end to end through the endpoint, a response whose
text is exactly "hello world". -/
theorem strip_roundtrip_spec :
    (∀ (settings : Settings) (prompt : String) (model : Option String)
        (max_tokens : Int) (temperature : ℚ) (text : String),
        call_openai settings prompt model max_tokens temperature (.success text)
          = .ok (pyStrip text)
        ∧ call_anthropic settings prompt model max_tokens temperature (.success text)
          = .ok (pyStrip text)
        ∧ call_gemini settings prompt model max_tokens temperature (.success text)
          = .ok (pyStrip text))
    ∧ (∀ (settings : Settings) (prompt : String) (model : Option String)
        (max_tokens : Int) (temperature : ℚ) (text : String),
        settings.is_ollama_available = true →
        call_ollama settings prompt model max_tokens temperature (.success text)
          = .ok (pyStrip text))
    ∧ pyStrip "  hello world  " = "hello world"
    ∧ chat_endpoint testSettings reqOpenaiHi
        (invokeWith testSettings (.success "  hello world  ") (.success "  hello world  "))
        = .ok { provider := "openai", model := "default", response := "hello world" } := by
  refine ⟨fun _ _ _ _ _ _ => ⟨rfl, rfl, rfl⟩, ?_, by decide, by decide⟩
  intro settings prompt model max_tokens temperature text hav
  simp [call_ollama, hav]

/-- Witness for C9: the ollama client, with ollama configured, also strips the
returned text. -/
theorem strip_roundtrip_spec_witness :
    call_ollama testSettings "hi" none 500 1 (.success "  hello world  ")
      = .ok "hello world" :=
  strip_roundtrip_spec.2.1 testSettings "hi" none 500 1 "  hello world  " (by decide)

/-- A raw request whose max_tokens lies above the allowed range. -/
def rawBadTokens : RawAIRequest :=
  { provider := "openai", prompt := "hi", max_tokens := some 5000 }

/-- A raw request with an empty prompt. -/
def rawEmptyPrompt : RawAIRequest :=
  { provider := "openai", prompt := "" }

/-- A raw request whose temperature lies above the allowed range. -/
def rawBadTemp : RawAIRequest :=
  { provider := "openai", prompt := "hi", temperature := some 3 }

/-- A raw request with every optional field omitted. -/
def rawDefaults : RawAIRequest :=
  { provider := "openai", prompt := "hi" }

/-- The validated form of `rawDefaults`: defaults applied. -/
def reqDefaults : AIRequest :=
  { provider := "openai", prompt := "hi", model := none, max_tokens := 500,
    temperature := 7/10 }

/-- Claim C8: a submitted request whose max_tokens lies outside [1,4096], whose
prompt is empty or longer than 10000 characters, or whose temperature lies
outside [0,2] is rejected by request validation, which runs before the endpoint
body — and hence before any backend call; max_tokens defaults to 500 and
temperature to 0.7 when omitted. -/
theorem request_validation_spec (settings : Settings) (raw : RawAIRequest) :
    (∀ n : Int, raw.max_tokens = some n → (n < 1 ∨ 4096 < n) →
        ∃ e, parseAIRequest raw = .error e)
    ∧ ((raw.prompt.data.length = 0 ∨ 10000 < raw.prompt.data.length) →
        ∃ e, parseAIRequest raw = .error e)
    ∧ (∀ t : ℚ, raw.temperature = some t → (t < 0 ∨ 2 < t) →
        ∃ e, parseAIRequest raw = .error e)
    ∧ (∀ (e : ValidationError) (invoke : Provider → InvokeArgs → CallResult),
        parseAIRequest raw = .error e →
        handle settings raw invoke = .validationError e)
    ∧ (∀ request : AIRequest, parseAIRequest raw = .ok request →
        (raw.max_tokens = none → request.max_tokens = 500)
        ∧ (raw.temperature = none → request.temperature = 7/10)) := by
  refine ⟨?_, ?_, ?_, ?_, ?_⟩
  · intro n hn hout
    cases hp : validate_prompt raw.prompt with
    | error e => exact ⟨e, by simp [parseAIRequest, hp]⟩
    | ok v =>
        refine ⟨.maxTokensRange, ?_⟩
        have hmt : validate_max_tokens raw.max_tokens = .error .maxTokensRange := by
          rw [hn]
          simp only [validate_max_tokens]
          exact if_pos hout
        simp [parseAIRequest, hp, hmt]
  · intro hout
    refine ⟨.promptLength, ?_⟩
    have hp : validate_prompt raw.prompt = .error .promptLength := by
      unfold validate_prompt
      rcases hout with h | h
      · rw [if_pos (by omega)]
      · rw [if_neg (by omega), if_pos h]
    simp [parseAIRequest, hp]
  · intro t ht hout
    cases hp : validate_prompt raw.prompt with
    | error e => exact ⟨e, by simp [parseAIRequest, hp]⟩
    | ok v =>
        cases hmt : validate_max_tokens raw.max_tokens with
        | error e => exact ⟨e, by simp [parseAIRequest, hp, hmt]⟩
        | ok m =>
            refine ⟨.temperatureRange, ?_⟩
            have hT : validate_temperature raw.temperature = .error .temperatureRange := by
              rw [ht]
              simp only [validate_temperature]
              exact if_pos hout
            simp [parseAIRequest, hp, hmt, hT]
  · intro e invoke h
    simp [handle, h]
  · intro request h
    cases hp : validate_prompt raw.prompt with
    | error e => simp [parseAIRequest, hp] at h
    | ok v =>
        cases hmt : validate_max_tokens raw.max_tokens with
        | error e => simp [parseAIRequest, hp, hmt] at h
        | ok m =>
            cases hT : validate_temperature raw.temperature with
            | error e => simp [parseAIRequest, hp, hmt, hT] at h
            | ok tv =>
                simp only [parseAIRequest, hp, hmt, hT] at h
                injection h with h
                subst h
                constructor
                · intro hnone
                  rw [hnone] at hmt
                  simp only [validate_max_tokens] at hmt
                  injection hmt with hmt
                  exact hmt.symm
                · intro hnone
                  rw [hnone] at hT
                  simp only [validate_temperature] at hT
                  injection hT with hT
                  exact hT.symm

/-- Witness for C8: out-of-range max_tokens, empty prompt and out-of-range
temperature are each rejected; the rejection reaches the handler before any
backend call; omitted fields get their defaults. -/
theorem request_validation_spec_witness :
    (∃ e, parseAIRequest rawBadTokens = .error e)
    ∧ (∃ e, parseAIRequest rawEmptyPrompt = .error e)
    ∧ (∃ e, parseAIRequest rawBadTemp = .error e)
    ∧ handle testSettings rawBadTokens okInvoke = .validationError .maxTokensRange
    ∧ ((rawDefaults.max_tokens = none → reqDefaults.max_tokens = 500)
        ∧ (rawDefaults.temperature = none → reqDefaults.temperature = 7/10)) :=
  ⟨(request_validation_spec testSettings rawBadTokens).1 5000 rfl (Or.inr (by decide)),
   (request_validation_spec testSettings rawEmptyPrompt).2.1 (Or.inl (by decide)),
   (request_validation_spec testSettings rawBadTemp).2.2.1 3 rfl (Or.inr (by decide)),
   (request_validation_spec testSettings rawBadTokens).2.2.2.1 .maxTokensRange okInvoke rfl,
   (request_validation_spec testSettings rawDefaults).2.2.2.2 reqDefaults rfl⟩

/-- An error value with a mismatched status is a different error value. -/
theorem error_ne_of_status (c₁ c₂ : Nat) (d₁ d₂ : String) (h : c₁ ≠ c₂) :
    (Except.error ⟨c₁, d₁⟩ : Except HTTPException String) ≠ .error ⟨c₂, d₂⟩ := by
  intro he
  injection he with he
  exact h (congrArg HTTPException.status_code he)

/-- An error value with a mismatched detail is a different error value. -/
theorem error_ne_of_detail (c₁ c₂ : Nat) (d₁ d₂ : String) (h : d₁ ≠ d₂) :
    (Except.error ⟨c₁, d₁⟩ : Except HTTPException String) ≠ .error ⟨c₂, d₂⟩ := by
  intro he
  injection he with he
  exact h (congrArg HTTPException.detail he)

/-- Claim C10: once the registry has resolved the identifier mapped to the
ollama provider function, that function's unconfigured-503 branch is
unreachable — both the registry and the client guard on the same
`Settings.is_ollama_available` predicate over the same immutable settings, so
no outcome of the backend call can produce the "Ollama is not configured"
error. -/
theorem ollama_guard_unreachable (settings : Settings) (s prompt : String)
    (model : Option String) (max_tokens : Int) (temperature : ℚ) (outcome : OllamaOutcome)
    (h : get_provider_function settings s = .ok Provider.ollama) :
    call_ollama settings prompt model max_tokens temperature outcome
      ≠ .error ⟨503, ollamaNotConfiguredDetail⟩ := by
  have hav := resolve_ok_ollama_available settings s h
  cases outcome with
  | success text =>
      intro he
      simp [call_ollama, hav] at he
  | responseError msg =>
      by_cases h1 : pyIn "model not found" (pyLower msg) = true
      · have hr : call_ollama settings prompt model max_tokens temperature (.responseError msg)
            = .error ⟨400, ollamaModelNotFoundDetail (pyStrOr model settings.default_ollama_model)⟩ := by
          simp [call_ollama, hav, h1]
        rw [hr]
        exact error_ne_of_status _ _ _ _ (by decide)
      · by_cases h2 : (pyIn "connection" (pyLower msg) || pyIn "refused" (pyLower msg)) = true
        · have hr : call_ollama settings prompt model max_tokens temperature (.responseError msg)
              = .error ⟨503, ollamaServerDownDetail settings.ollama_host⟩ := by
            simp [call_ollama, hav, h1, h2]
          rw [hr]
          apply error_ne_of_detail
          unfold ollamaServerDownDetail ollamaNotConfiguredDetail
          exact append_ne_of_take_ne _ _ _ 8 (by decide) (by decide)
        · have hr : call_ollama settings prompt model max_tokens temperature (.responseError msg)
              = .error ⟨502, "Ollama error: " ++ msg⟩ := by
            simp [call_ollama, hav, h1, h2]
          rw [hr]
          exact error_ne_of_status _ _ _ _ (by decide)
  | failure msg =>
      have hr : call_ollama settings prompt model max_tokens temperature (.failure msg)
          = .error ⟨502, "Ollama request failed: " ++ msg⟩ := by
        simp [call_ollama, hav]
      rw [hr]
      exact error_ne_of_status _ _ _ _ (by decide)

/-- Witness for C10: with the registry having resolved "ollama" against the
configured settings, even a connection-refused backend error never surfaces as
the not-configured 503. -/
theorem ollama_guard_unreachable_witness :
    call_ollama testSettings "hi" none 500 1 (.responseError "connection refused")
      ≠ .error ⟨503, ollamaNotConfiguredDetail⟩ :=
  ollama_guard_unreachable testSettings "ollama" "hi" none 500 1
    (.responseError "connection refused") (by decide)
